import Mathlib

/-!
# Verification of the CodeChecker server session manager

A shallow embedding of `web/server/codechecker_server/session_manager.py`
(the authentication / session lifecycle core) together with proofs about
its behaviour.

Modelling conventions:

* `datetime.now()` is an explicit integer timestamp (seconds) supplied in
  an `Env` value, frozen for the duration of one operation.
* Python exceptions that the code can raise and that are *not* caught are
  modelled with `Except PyErr`; a `try/except` block in the source becomes
  an explicit `match` on an `Except` value in the model.
* The SQLAlchemy-backed persistent store is modelled as explicit lists of
  records (`Store`); the database collaborator itself is assumed to not
  fail (persistence failures are an orthogonal, external nondeterminism).
  `self.__database_connection` is `Option Store` — `none` models a `None`
  connection.
* External capabilities (PAM, LDAP, `hashlib` digests, compiled `re`
  patterns, OAuth templates, `os.urandom` tokens) are oracle functions in
  `Env` or inside the configuration, exactly at the interface the Python
  code consumes them.
-/

/-- The Python exception kinds relevant to the embedded code paths. -/
inductive PyErr where
  | valueError
  | keyError
  | indexError
  | attributeError
  | typeError
deriving DecidableEq, Repr

/-! ## Python string primitives used by the source -/

/-- Worker for `pySplit`: accumulator-based scan of the character list.
`maxs = some k` means at most `k` further splits are allowed (Python's
`maxsplit`); `none` means unlimited. -/
def pySplitGo (sep : Char) : Option Nat → List Char → List Char → List String
  | _, acc, [] => [String.mk acc.reverse]
  | maxs, acc, c :: rest =>
    if c = sep ∧ maxs ≠ some 0 then
      String.mk acc.reverse ::
        pySplitGo sep (match maxs with | some (k+1) => some k | x => x) [] rest
    else
      pySplitGo sep maxs (c :: acc) rest

/-- Python's `str.split(sep, maxsplit)` for a one-character separator:
always returns at least one element; `"".split(sep) = [""]`. -/
def pySplit (sep : Char) (maxs : Option Nat) (s : String) : List String :=
  pySplitGo sep maxs [] s.data

/-- The `user, token = auth_string.split(':', 1)` unpacking: `some` when the
string contains a colon, `none` when unpacking would raise `ValueError`. -/
def splitColon1 (s : String) : Option (String × String) :=
  match pySplit ':' (some 1) s with
  | [a, b] => some (a, b)
  | _ => none

/-- Python's `';'.join(groups)`. -/
def joinSemi (groups : List String) : String :=
  String.intercalate ";" groups

/-- Assoc-list lookup (Python `dict` access by key). -/
def lookupStr (l : List (String × String)) (k : String) : Option String :=
  (l.find? (fun p => p.1 == k)).map (·.2)

/-- Read a `{variable}` reference of Python's `str.format` up to the closing
brace; returns the name and the remaining characters. -/
def takeVarName : List Char → Option (String × List Char)
  | [] => none
  | '\x7d' :: rest => some ("", rest)
  | c :: rest =>
    (takeVarName rest).map (fun p => (String.mk (c :: p.1.data), p.2))

/-- Python's `str.format(**variables)` restricted to the `{name}` and
doubled-brace forms that occur in the configuration, written with a
character-count fuel so that it reduces by kernel computation. `none`
models the `KeyError` raised on an undefined variable (an unterminated
brace, which would raise `ValueError` in Python, is folded into `none` as
well; no such value occurs in any statement proved below). Fuel at least
the character count always suffices since every step consumes at least one
character. -/
def pyFormatGo (vars : List (String × String)) : Nat → List Char → Option (List Char)
  | _, [] => some []
  | 0, _ :: _ => none
  | fuel + 1, '\x7b' :: '\x7b' :: rest => (pyFormatGo vars fuel rest).map ('\x7b' :: ·)
  | fuel + 1, '\x7d' :: '\x7d' :: rest => (pyFormatGo vars fuel rest).map ('\x7d' :: ·)
  | fuel + 1, '\x7b' :: rest =>
    match takeVarName rest with
    | none => none
    | some (nm, r) =>
      match lookupStr vars nm with
      | none => none
      | some v => (pyFormatGo vars fuel r).map (v.data ++ ·)
  | fuel + 1, c :: rest => (pyFormatGo vars fuel rest).map (c :: ·)

/-- Python's `str.format(**variables)`. -/
def pyFormat (s : String) (vars : List (String × String)) : Option String :=
  (pyFormatGo vars s.data.length s.data).map String.mk

/-! ## SHA-256 (the `hashlib.sha256` collaborator)

A direct implementation of FIPS 180-4, used to instantiate the `hashlib`
oracle when a claim speaks about concrete digests. -/

/-- The word modulus of SHA-256, 2^32. -/
def m32 : Nat := 4294967296

/-- Right-rotation of a 32-bit word. -/
def rotr32 (n x : Nat) : Nat :=
  ((x >>> n) ||| (x <<< (32 - n))) % m32

/-- The 64 SHA-256 round constants. -/
def sha256K : List Nat :=
  [1116352408, 1899447441, 3049323471, 3921009573, 961987163,
   1508970993, 2453635748, 2870763221, 3624381080, 310598401,
   607225278, 1426881987, 1925078388, 2162078206, 2614888103,
   3248222580, 3835390401, 4022224774, 264347078, 604807628,
   770255983, 1249150122, 1555081692, 1996064986, 2554220882,
   2821834349, 2952996808, 3210313671, 3336571891, 3584528711,
   113926993, 338241895, 666307205, 773529912, 1294757372,
   1396182291, 1695183700, 1986661051, 2177026350, 2456956037,
   2730485921, 2820302411, 3259730800, 3345764771, 3516065817,
   3600352804, 4094571909, 275423344, 430227734, 506948616,
   659060556, 883997877, 958139571, 1322822218, 1537002063,
   1747873779, 1955562222, 2024104815, 2227730452, 2361852424,
   2428436474, 2756734187, 3204031479, 3329325298]

/-- The 8 initial SHA-256 hash values. -/
def sha256Init : List Nat :=
  [1779033703, 3144134277, 1013904242, 2773480762,
   1359893119, 2600822924, 528734635, 1541459225]

/-- Big-endian bytes → 32-bit words (groups of four). -/
def bytesToWords : List Nat → List Nat
  | a :: b :: c :: d :: rest => (((a * 256 + b) * 256 + c) * 256 + d) :: bytesToWords rest
  | _ => []

/-- Worker extending the message schedule one word per fuel step. -/
def extendScheduleGo : Nat → List Nat → List Nat
  | 0, w => w
  | k + 1, w =>
    let i := w.length
    let w15 := w.getD (i - 15) 0
    let w2 := w.getD (i - 2) 0
    let s0 := (rotr32 7 w15) ^^^ (rotr32 18 w15) ^^^ (w15 >>> 3)
    let s1 := (rotr32 17 w2) ^^^ (rotr32 19 w2) ^^^ (w2 >>> 10)
    extendScheduleGo k (w ++ [(w.getD (i - 16) 0 + s0 + w.getD (i - 7) 0 + s1) % m32])

/-- Extend a 16-word message block to the 64-word schedule. -/
def extendSchedule (w : List Nat) : List Nat :=
  extendScheduleGo 48 w

/-- One SHA-256 compression round: state is the 8-tuple `(a,…,h)`, input the
pair of round constant and schedule word. -/
def sha256Round (st : Nat × Nat × Nat × Nat × Nat × Nat × Nat × Nat) (kw : Nat × Nat) :
    Nat × Nat × Nat × Nat × Nat × Nat × Nat × Nat :=
  let (a, b, c, d, e, f, g, h) := st
  let s1 := (rotr32 6 e) ^^^ (rotr32 11 e) ^^^ (rotr32 25 e)
  let ch := (e &&& f) ^^^ ((m32 - 1 - e) &&& g)
  let t1 := (h + s1 + ch + kw.1 + kw.2) % m32
  let s0 := (rotr32 2 a) ^^^ (rotr32 13 a) ^^^ (rotr32 22 a)
  let mj := (a &&& b) ^^^ (a &&& c) ^^^ (b &&& c)
  let t2 := (s0 + mj) % m32
  ((t1 + t2) % m32, a, b, c, (d + t1) % m32, e, f, g)

/-- Compress one 64-byte block into the running hash state. -/
def sha256Compress (hs : List Nat) (block : List Nat) : List Nat :=
  let w := extendSchedule (bytesToWords block)
  let a0 := hs.getD 0 0
  let b0 := hs.getD 1 0
  let c0 := hs.getD 2 0
  let d0 := hs.getD 3 0
  let e0 := hs.getD 4 0
  let f0 := hs.getD 5 0
  let g0 := hs.getD 6 0
  let h0 := hs.getD 7 0
  let (a, b, c, d, e, f, g, h) :=
    (sha256K.zip w).foldl sha256Round (a0, b0, c0, d0, e0, f0, g0, h0)
  [(a0 + a) % m32, (b0 + b) % m32, (c0 + c) % m32, (d0 + d) % m32,
   (e0 + e) % m32, (f0 + f) % m32, (g0 + g) % m32, (h0 + h) % m32]

/-- The `k`-byte big-endian encoding of `n`. -/
def natToBytesBE (k : Nat) (n : Nat) : List Nat :=
  (List.range k).map (fun i => (n >>> (8 * (k - 1 - i))) % 256)

/-- SHA-256 padding: append `0x80`, zero bytes up to 56 mod 64, and the
64-bit big-endian bit length. -/
def sha256Pad (msg : List Nat) : List Nat :=
  let z := (56 + 64 - ((msg.length + 1) % 64)) % 64
  msg ++ [0x80] ++ List.replicate z 0 ++ natToBytesBE 8 (8 * msg.length)

/-- Worker splitting a byte list into 64-byte blocks; fuel at least the
list length always suffices. -/
def chunks64Go : Nat → List Nat → List (List Nat)
  | 0, _ => []
  | fuel + 1, l =>
    if l = [] then [] else (l.take 64) :: chunks64Go fuel (l.drop 64)

/-- Split a byte list into 64-byte blocks. -/
def chunks64 (l : List Nat) : List (List Nat) :=
  chunks64Go l.length l

/-- SHA-256 of a byte string, as the 8-word state. -/
def sha256Words (msg : List Nat) : List Nat :=
  (chunks64 (sha256Pad msg)).foldl sha256Compress sha256Init

/-- UTF-8 encoding of one code point (Python `str.encode("utf-8")`). -/
def utf8Bytes (n : Nat) : List Nat :=
  if n < 0x80 then [n]
  else if n < 0x800 then
    [0xC0 ||| (n >>> 6), 0x80 ||| (n &&& 0x3F)]
  else if n < 0x10000 then
    [0xE0 ||| (n >>> 12), 0x80 ||| ((n >>> 6) &&& 0x3F), 0x80 ||| (n &&& 0x3F)]
  else
    [0xF0 ||| (n >>> 18), 0x80 ||| ((n >>> 12) &&& 0x3F),
     0x80 ||| ((n >>> 6) &&& 0x3F), 0x80 ||| (n &&& 0x3F)]

/-- Python `s.encode("utf-8")` as a byte list. -/
def strBytes (s : String) : List Nat :=
  s.data.flatMap (fun c => utf8Bytes c.toNat)

/-- One hexadecimal digit character. -/
def hexChar (n : Nat) : Char :=
  if n < 10 then Char.ofNat (48 + n) else Char.ofNat (87 + n)

/-- Lower-case hex rendering of one 32-bit word (8 digits). -/
def wordHex (w : Nat) : List Char :=
  (List.range 8).map (fun i => hexChar ((w >>> (28 - 4 * i)) % 16))

/-- Model of `hashlib.sha256(s.encode("utf-8")).hexdigest()`. -/
def sha256Hex (s : String) : String :=
  String.mk ((sha256Words (strBytes s)).flatMap wordHex)

/-! ## Data model

Record shapes of the persisted store. The SQLAlchemy model classes
(`config_db_model.py`) are outside this slice; the fields below are the
ones the session manager reads and writes, with `last_access` of a freshly
inserted `SessionRecord` defaulting to the creation time (the spec:
"Created together with a `Session` on issuance"). -/

/-- A persisted login session row (`SessionRecord`). -/
structure SessionRecord where
  token : String
  user_name : String
  groups : String
  last_access : Int
deriving DecidableEq, Repr

/-- A persisted personal access token row. -/
structure PATRecord where
  user_name : String
  token : String
  groups : String
  expiration : Int
deriving DecidableEq, Repr

/-- The persisted store reachable through `self.__database_connection`.
`systemPerms` models the `SystemPermission` rows carrying the `SUPERUSER`
permission, represented by the grantee names (the only query made against
them filters on name and the SUPERUSER permission). -/
structure Store where
  sessions : List SessionRecord
  pats : List PATRecord
  systemPerms : List String
deriving DecidableEq, Repr

/-- The in-memory `_Session` object. `database : Bool` records whether the
session was constructed with a database connection (`self.__database`). -/
structure LocalSession where
  token : String
  user : String
  groups : List String
  session_lifetime : Int
  refresh_time : Option Int
  is_root : Bool
  database : Bool
  last_access : Int
deriving DecidableEq, Repr

/-- Model of `_Session.__init__`: a falsy `refresh_time` argument (Python `None` or
`0`) is stored as `None`; a missing `last_access` defaults to
`datetime.now()`. -/
def mkSession (token username : String) (groups : List String)
    (session_lifetime : Int) (refresh_time : Option Int) (is_root : Bool)
    (database : Bool) (last_access : Option Int) (now : Int) : LocalSession :=
  { token := token
    user := username
    groups := groups
    session_lifetime := session_lifetime
    refresh_time := match refresh_time with
      | some r => if r = 0 then none else some r
      | none => none
    is_root := is_root
    database := database
    last_access := last_access.getD now }

/-- Model of `_Session.is_refresh_time_expire`: true when `refresh_time` is falsy
(`None`, or `0` as assigned directly by `reload_config`), else when the
time since `last_access` exceeds it. -/
def is_refresh_time_expire (now : Int) (s : LocalSession) : Bool :=
  match s.refresh_time with
  | none => true
  | some r => if r = 0 then true else decide (now - s.last_access > r)

/-- Model of `_Session.is_alive`: within the session lifetime. -/
def is_alive (now : Int) (s : LocalSession) : Bool :=
  decide (now - s.last_access ≤ s.session_lifetime)

/-- Update the `last_access` column of the first store row matching the
session's user and token (the `limit(1).one_or_none()` query of
`_Session.revalidate`). -/
def updateFirstRecord (user token : String) (la : Int) :
    List SessionRecord → List SessionRecord
  | [] => []
  | r :: rest =>
    if r.user_name == user && r.token == token then
      { r with last_access := la } :: rest
    else r :: updateFirstRecord user token la rest

/-- Model of `_Session.revalidate`: a no-op on a session past its lifetime;
otherwise, when the session holds a database connection and the refresh
time has expired, bump `last_access` to now and persist it. A persistence
failure would be logged and swallowed; the store argument is the state of
the database behind the session's connection. -/
def revalidate (now : Int) (s : LocalSession) (db : Option Store) :
    LocalSession × Option Store :=
  if ¬ is_alive now s then (s, db)
  else if s.database && is_refresh_time_expire now s then
    let s' := { s with last_access := now }
    match db with
    | none => (s', none)
    | some store =>
      (s', some { store with
        sessions := updateFirstRecord s.user s.token now store.sessions })
  else (s, db)

/-! ## Configuration -/

/-- Model of `method_dictionary` configuration. -/
structure DictMethodCfg where
  enabled : Bool
  auths : List String
  groups : Option (List (String × List String))

/-- One LDAP authority, consumed as the capability pair
`cc_ldap.auth_user` / `cc_ldap.get_groups`. -/
structure LdapAuthority where
  auth_user : String → String → Bool
  get_groups : String → String → List String

/-- Model of `method_ldap` configuration. -/
structure LdapCfg where
  enabled : Bool
  authorities : List LdapAuthority

/-- One OAuth provider configuration. The keys in the explicit skip list of
`__oauth_apply_templates` (`enabled`, `client_id`, `client_secret`,
`template`, `variables`, `user_info_mapping`) are structure fields
(`user_info_mapping` is never read by the embedded code and is omitted);
every other, substitutable string field lives in `params` in dict
insertion order. `vars` is the provider's `variables` key (`variables` is
a reserved word in Lean). -/
structure ProviderCfg where
  enabled : Bool
  client_id : Option String
  client_secret : Option String
  template : Option String
  vars : List (String × String)
  params : List (String × String)
deriving DecidableEq, Repr

/-- Model of `method_oauth` configuration. -/
structure OAuthCfg where
  enabled : Bool
  shared_variables : List (String × String)
  providers : List (String × ProviderCfg)
deriving DecidableEq, Repr

/-- Model of `self.__auth_config` together with the pre-compiled regex group table.
Fields the Python code accesses by `[...]` are `Option`-valued when the
configuration file may omit them (an access of a missing key raises
`KeyError`). A compiled regular expression is its `re.search` oracle
`String → Bool`. -/
structure AuthConfig where
  enabled : Bool
  session_lifetime : Option Int
  refresh_time : Option Int
  logins_until_cleanup : Option Int
  super_user : Option String
  regex_groups_enabled : Bool
  group_regexes : List (String × List (String → Bool))
  method_dictionary : Option DictMethodCfg
  method_pam : Option Bool
  method_ldap : Option LdapCfg
  method_oauth : Option OAuthCfg

/-- The `store` configuration block (compared by `json.dumps` with sorted
keys in `reload_config`, i.e. structurally). -/
structure StoreCfg where
  analysis_statistics_dir : Option String
  failure_zip_size : Option Int
  compilation_database_size : Option Int
deriving DecidableEq, Repr

/-- The `authentication` section of a freshly parsed configuration
document, restricted to the fields `reload_config` reads. -/
structure AuthDoc where
  session_lifetime : Option Int
  refresh_time : Option Int
  logins_until_cleanup : Option Int
deriving DecidableEq, Repr

/-- A parsed configuration document, restricted to the fields
`reload_config` reads; `authentication := none` models a document without
an `authentication` key. -/
structure CfgDoc where
  max_run_count : Option Int
  store : StoreCfg
  authentication : Option AuthDoc
deriving DecidableEq, Repr

/-- The mutable state of a `SessionManager`: the local session cache, the
database connection (`none` = no connection), the prune counter and the
configuration. `refresh_time_mgr` is `self.__refresh_time`, cached from
the configuration at construction time. -/
structure SMState where
  sessions : List LocalSession
  db : Option Store
  logins_since_prune : Int
  max_run_count : Option Int
  store_config : StoreCfg
  auth : AuthConfig
  refresh_time_mgr : Option Int

/-- The external world of one operation: the frozen clock, the token that
`os.urandom`/`uuid` would mint, `UNSUPPORTED_METHODS`, and the PAM,
`hashlib`, OAuth-template and `re.match` collaborators. `callback_match
name url` is the oracle for matching `url` against the compiled callback
pattern built for provider `name`. -/
structure Env where
  now : Int
  fresh_token : String
  unsupported : List String
  pam_auth : String → String → Bool
  hashlib : String → Option (String → String)
  templates : String → Option (List (String × String))
  callback_match : String → String → Bool

/-- A validation result dict: `groups := none` models a dict without a
`'groups'` key (as produced by the PAM validator). -/
structure Validation where
  username : String
  groups : Option (List String)
deriving DecidableEq, Repr

/-! ## SessionManager operations -/

/-- Model of `SessionManager.__is_method_enabled`, split per method: `'method_' +
method in self.__auth_config and self.__auth_config['method_' + method]
.get('enabled')`. -/
def methodCfgEnabled (auth : AuthConfig) : String → Bool
  | "dictionary" => match auth.method_dictionary with
    | some c => c.enabled
    | none => false
  | "pam" => auth.method_pam.getD false
  | "ldap" => match auth.method_ldap with
    | some c => c.enabled
    | none => false
  | "oauth" => match auth.method_oauth with
    | some c => c.enabled
    | none => false
  | _ => false

/-- Model of `SessionManager.__is_method_enabled`. -/
def isMethodEnabled (env : Env) (auth : AuthConfig) (m : String) : Bool :=
  !(env.unsupported.contains m) && methodCfgEnabled auth m

/-- Model of `SessionManager.__try_regex_groups`: the names of every group one of
whose compiled patterns search-matches the username (a Python `set`;
group names are dict keys, hence duplicate-free). -/
def tryRegexGroups (auth : AuthConfig) (username : String) : List String :=
  if ¬ auth.regex_groups_enabled then []
  else (auth.group_regexes.filter (fun p => p.2.any (fun r => r username))).map (·.1)

/-- Model of `SessionManager.__is_root_user`: the configured superuser name, or a
stored `SystemPermission` grant. With no database connection the
`self.__database_connection()` call raises `TypeError`, which the
surrounding `except Exception` turns into `False`. -/
def isRootUser (st : SMState) (user_name : String) : Bool :=
  if st.auth.super_user == some user_name then true
  else match st.db with
    | none => false
    | some store => store.systemPerms.contains user_name

/-- Model of `SessionManager.__create_local_session`. Reading a missing
`session_lifetime` key raises `KeyError`. -/
def createLocalSession (env : Env) (st : SMState) (token user_name : String)
    (groups : List String) (is_root : Bool) (last_access : Option Int) :
    Except PyErr LocalSession :=
  let is_root := if is_root then true else isRootUser st user_name
  match st.auth.session_lifetime with
  | none => .error .keyError
  | some lt =>
    .ok (mkSession token user_name groups lt st.refresh_time_mgr is_root
          st.db.isSome last_access env.now)

/-- Model of `SessionManager.__get_local_session_from_db`: look the token up in the
persisted store and rebuild a local session; every exception inside is
caught and yields `None`. -/
def getLocalSessionFromDb (env : Env) (st : SMState) (token : String) :
    Option LocalSession :=
  match st.db with
  | none => none
  | some store =>
    match store.sessions.find? (fun r => r.token == token) with
    | none => none
    | some r =>
      let groups := if r.groups == "" then [] else pySplit ';' none r.groups
      match createLocalSession env st token r.user_name groups
          (isRootUser st r.user_name) (some r.last_access) with
      | .error _ => none
      | .ok s => some s

/-- Model of `SessionManager.__try_auth_token`. The tuple unpacking
`user_name, token = auth_string.split(':', 1)` sits *outside* the `try`
block: with a connected database and a colon-less credential it raises
`ValueError` to the caller. -/
def tryAuthToken (db : Option Store) (auth_string : String) :
    Except PyErr (Option SessionRecord) :=
  match db with
  | none => .ok none
  | some store =>
    match splitColon1 auth_string with
    | none => .error .valueError
    | some (user_name, token) =>
      .ok (store.sessions.find? (fun r => r.user_name == user_name && r.token == token))

/-- Model of `SessionManager.__try_personal_access_token`: match a stored personal
access token and reject it when expired. The split is outside the `try`
block here as well. -/
def tryPersonalAccessToken (env : Env) (auth_string : String) (st : SMState) :
    Except PyErr (Option Validation × SMState) :=
  match st.db with
  | none => .ok (none, st)
  | some store =>
    match splitColon1 auth_string with
    | none => .error .valueError
    | some (user_name, token) =>
      match store.pats.find? (fun p => p.user_name == user_name && p.token == token) with
      | none => .ok (none, st)
      | some pat =>
        if pat.expiration < env.now then .ok (none, st)
        else .ok (some { username := pat.user_name
                         groups := some (pySplit ';' none pat.groups) }, st)

/-- Model of `SessionManager.__update_personal_access_token_groups`: overwrite the
groups column of every personal access token of the user. -/
def updatePATGroupsState (user_name : String) (groups : List String)
    (st : SMState) : SMState :=
  match st.db with
  | none => st
  | some store =>
    { st with db := some { store with
        pats := store.pats.map (fun p =>
          if p.user_name == user_name then { p with groups := joinSemi groups } else p) } }

/-- Model of `SessionManager.__update_groups`: overwrite the groups column of every
session record of the user. -/
def updateSessionGroupsState (user_name : String) (groups : List String)
    (st : SMState) : SMState :=
  match st.db with
  | none => st
  | some store =>
    { st with db := some { store with
        sessions := store.sessions.map (fun r =>
          if r.user_name == user_name then { r with groups := joinSemi groups } else r) } }

/-- Model of `SessionManager.__try_auth_dictionary`. The `IndexError` of
`saved_auth_string_split[2]` is caught (`return False`); the one of
`auth_string_split[1]` on a colon-less credential is not. On success the
user's static groups are pushed into the personal-access-token store. -/
def tryAuthDictionary (env : Env) (auth_string : String) (st : SMState) :
    Except PyErr (Option Validation × SMState) :=
  match st.auth.method_dictionary with
  | none => .ok (none, st)
  | some mc =>
    if ¬ isMethodEnabled env st.auth "dictionary" then .ok (none, st)
    else
      let auth_string_split := pySplit ':' (some 1) auth_string
      let username := auth_string_split.headD ""
      match mc.auths.filter (fun a => (pySplit ':' (some 1) a).headD "" == username) with
      | [] => .ok (none, st)
      | saved0 :: _ =>
        let group_list := match mc.groups with
          | some gmap => (((gmap.find? (fun p => p.1 == username)).map (·.2)).getD [])
          | none => []
        let success : Except PyErr (Option Validation × SMState) :=
          .ok (some { username := username, groups := some group_list },
               updatePATGroupsState username group_list st)
        if saved0 == auth_string then success
        else
          let sp := pySplit ':' (some 3) saved0
          match sp[2]? with
          | none => .ok (none, st)
          | some hash_algorithm =>
            match env.hashlib hash_algorithm with
            | none => .ok (none, st)
            | some digestHex =>
              match auth_string_split[1]? with
              | none => .error .indexError
              | some password =>
                let password := match sp[3]? with
                  | some salt => password ++ salt
                  | none => password
                if ¬ (sp.getD 1 "" == digestHex password) then .ok (none, st)
                else success

/-- Model of `SessionManager.__try_auth_pam`: delegate to the PAM capability; a
successful validation carries no `'groups'` key. -/
def tryAuthPam (env : Env) (auth_string : String) (st : SMState) :
    Except PyErr (Option Validation × SMState) :=
  if isMethodEnabled env st.auth "pam" then
    match splitColon1 auth_string with
    | none => .error .valueError
    | some (username, password) =>
      if env.pam_auth username password then
        .ok (some { username := username, groups := none }, st)
      else .ok (none, st)
  else .ok (none, st)

/-- The authority loop of `__try_auth_ldap`: first authority accepting the
credential wins; its groups are propagated into the session-record and
personal-access-token group columns. -/
def ldapLoop (st : SMState) (username password : String) :
    List LdapAuthority → Option Validation × SMState
  | [] => (none, st)
  | a :: rest =>
    if a.auth_user username password then
      let groups := a.get_groups username password
      let st1 := updateSessionGroupsState username groups st
      let st2 := updatePATGroupsState username groups st1
      (some { username := username, groups := some groups }, st2)
    else ldapLoop st username password rest

/-- Model of `SessionManager.__try_auth_ldap`. -/
def tryAuthLdap (env : Env) (auth_string : String) (st : SMState) :
    Except PyErr (Option Validation × SMState) :=
  if isMethodEnabled env st.auth "ldap" then
    match splitColon1 auth_string with
    | none => .error .valueError
    | some (username, password) =>
      match st.auth.method_ldap with
      | none => .ok (none, st)
      | some lc => .ok (ldapLoop st username password lc.authorities)
  else .ok (none, st)

/-- The short-circuiting `or`-chain of `__handle_validation`:
`__try_personal_access_token or __try_auth_dictionary or __try_auth_pam
or __try_auth_ldap`. -/
def validationChainRaw (env : Env) (auth_string : String) (st : SMState) :
    Except PyErr (Option Validation × SMState) :=
  match tryPersonalAccessToken env auth_string st with
  | .error e => .error e
  | .ok (some v, st1) => .ok (some v, st1)
  | .ok (none, st1) =>
    match tryAuthDictionary env auth_string st1 with
    | .error e => .error e
    | .ok (some v, st2) => .ok (some v, st2)
    | .ok (none, st2) =>
      match tryAuthPam env auth_string st2 with
      | .error e => .error e
      | .ok (some v, st3) => .ok (some v, st3)
      | .ok (none, st3) => tryAuthLdap env auth_string st3

/-- The group-extension tail of `__handle_validation`. When the regex
resolver returns a non-empty set, `validation['groups']` is read with a
plain subscript — a PAM validation (no `'groups'` key) raises `KeyError`
here. Python's `list(set(already) | extra)` has unspecified order; the
model picks the canonical representative `(gs ++ extra).dedup`, equal as
a set. -/
def regexExtend (st1 : SMState) (v : Validation) :
    Except PyErr (Option Validation × SMState) :=
  let extra_groups := tryRegexGroups st1.auth v.username
  if extra_groups ≠ [] then
    match v.groups with
    | none => .error .keyError
    | some gs => .ok (some { v with groups := some ((gs ++ extra_groups).dedup) }, st1)
  else .ok (some v, st1)

/-- Model of `SessionManager.__handle_validation`: run the validator chain, then
extend the groups with the regex groups. -/
def handleValidation (env : Env) (auth_string : String) (st : SMState) :
    Except PyErr (Option Validation × SMState) :=
  match validationChainRaw env auth_string st with
  | .error e => .error e
  | .ok (none, st1) => .ok (none, st1)
  | .ok (some v, st1) => regexExtend st1 v

/-- Remove the first local session carrying the token; reports whether one
was found. -/
def removeFirstToken (token : String) : List LocalSession → Bool × List LocalSession
  | [] => (false, [])
  | s :: rest =>
    if s.token == token then (true, rest)
    else
      let p := removeFirstToken token rest
      (p.1, s :: p.2)

/-- Model of `SessionManager.invalidate_local_session`. -/
def invalidate_local_session (token : String) (st : SMState) : Bool × SMState :=
  let p := removeFirstToken token st.sessions
  (p.1, { st with sessions := p.2 })

/-- Model of `SessionManager.invalidate`: local removal, then best-effort deletion
of every persisted row with the token; returns `True` (no persistence
failure occurs in the model). -/
def invalidate (token : String) (st : SMState) : Bool × SMState :=
  let st1 := (invalidate_local_session token st).2
  match st1.db with
  | none => (true, st1)
  | some store =>
    (true, { st1 with db := some { store with
        sessions := store.sessions.filter (fun r => ¬ (r.token == token)) } })

/-- First pass of `__cleanup_sessions`: `for s in self.__sessions: if
s.is_refresh_time_expire: self.invalidate_local_session(s.token)`. The
Python list iterator holds a bare index that is *not* adjusted when
`invalidate_local_session` removes an element in front of it, so the
element following a removed one is skipped; the model replays exactly
that: the index advances by one each step over the *mutated* list. Fuel
at least the initial list length always suffices, since the index grows
each step and the list never grows. -/
def cleanupPass1Go (env : Env) : Nat → Nat → SMState → SMState
  | 0, _, st => st
  | fuel + 1, n, st =>
    match st.sessions[n]? with
    | none => st
    | some s =>
      let st' := if is_refresh_time_expire env.now s
                 then (invalidate_local_session s.token st).2
                 else st
      cleanupPass1Go env fuel (n + 1) st'

/-- Second pass of `__cleanup_sessions`: `for s in self.__sessions: if not
s.is_alive: self.invalidate(s.token)`, with the same iterator semantics. -/
def cleanupPass2Go (env : Env) : Nat → Nat → SMState → SMState
  | 0, _, st => st
  | fuel + 1, n, st =>
    match st.sessions[n]? with
    | none => st
    | some s =>
      let st' := if ¬ is_alive env.now s then (invalidate s.token st).2 else st
      cleanupPass2Go env fuel (n + 1) st'

/-- Model of `SessionManager.__cleanup_sessions`: reset the prune counter, then the
two passes. -/
def cleanupSessions (env : Env) (st : SMState) : SMState :=
  let st0 := { st with logins_since_prune := 0 }
  let st1 := cleanupPass1Go env st0.sessions.length 0 st0
  cleanupPass2Go env st1.sessions.length 0 st1

/-- The three possible results of `create_session`: a `_Session` object,
`None` (authentication disabled) or `False` (validation failed). -/
inductive CreateResult where
  | session (s : LocalSession)
  | noneR
  | falseR
deriving DecidableEq, Repr

/-- Model of `SessionManager.create_session`. Control flow from the source: the
enabled gate, the prune-counter bump and conditional cleanup, the bearer
session-token lookup (a hit rebuilds the stored session, appends it and
returns it), then `__handle_validation` and, on success, minting
`env.fresh_token`, building the local session (a validation dict never
carries a `'root'` key, so `validation.get('root', False)` is `False`),
appending it and inserting the persisted record. -/
def createSession (env : Env) (auth_string : String) (st : SMState) :
    Except PyErr (CreateResult × SMState) :=
  if ¬ st.auth.enabled then .ok (.noneR, st)
  else
    let st := { st with logins_since_prune := st.logins_since_prune + 1 }
    match st.auth.logins_until_cleanup with
    | none => .error .keyError
    | some k =>
      let st := if st.logins_since_prune ≥ k then cleanupSessions env st else st
      match tryAuthToken st.db auth_string with
      | .error e => .error e
      | .ok (some record) =>
        match getLocalSessionFromDb env st record.token with
        | none => .error .attributeError
        | some ls =>
          let p := revalidate env.now ls st.db
          .ok (.session p.1, { st with db := p.2, sessions := st.sessions ++ [p.1] })
      | .ok none =>
        match handleValidation env auth_string st with
        | .error e => .error e
        | .ok (none, st1) => .ok (.falseR, st1)
        | .ok (some validation, st1) =>
          let token := env.fresh_token
          let user_name := validation.username
          let groups := validation.groups.getD []
          match createLocalSession env st1 token user_name groups false none with
          | .error e => .error e
          | .ok ls =>
            let st2 := { st1 with sessions := st1.sessions ++ [ls] }
            let st3 := match st2.db with
              | none => st2
              | some store =>
                { st2 with db := some { store with
                    sessions := store.sessions ++
                      [{ token := token, user_name := user_name,
                         groups := joinSemi groups, last_access := env.now }] } }
            .ok (.session ls, st3)

/-- Model of `SessionManager.get_session`. Returns `None` when authentication is
disabled; scans the local cache for an alive session with the token,
revalidating a stale hit; falls through to the persisted store; a miss or
a dead rehydrated row invalidates the token everywhere. No exception can
escape: every database access inside this path is guarded. -/
def getSession (env : Env) (token : String) (st : SMState) :
    Option LocalSession × SMState :=
  if ¬ st.auth.enabled then (none, st)
  else
    match st.sessions.findIdx? (fun s => is_alive env.now s && s.token == token) with
    | some i =>
      match st.sessions[i]? with
      | none => (none, st)
      | some s =>
        if is_refresh_time_expire env.now s then
          let p := revalidate env.now s st.db
          (some p.1, { st with sessions := st.sessions.set i p.1, db := p.2 })
        else (some s, st)
    | none =>
      match getLocalSessionFromDb env st token with
      | some ls =>
        if is_alive env.now ls then
          if is_refresh_time_expire env.now ls then
            let p := revalidate env.now ls st.db
            (some p.1, { st with sessions := st.sessions ++ [p.1], db := p.2 })
          else (some ls, { st with sessions := st.sessions ++ [ls] })
        else (none, (invalidate token st).2)
      | none => (none, (invalidate token st).2)

/-! ## Configuration reload -/

/-- The fixed list `auth_fields_to_update` of `reload_config`. -/
def reloadFields : List String := ["session_lifetime", "refresh_time", "logins_until_cleanup"]

/-- Model of `field in self.__auth_config` for the three reloadable fields. -/
def authFieldPresent (a : AuthConfig) : String → Bool
  | "session_lifetime" => a.session_lifetime.isSome
  | "refresh_time" => a.refresh_time.isSome
  | "logins_until_cleanup" => a.logins_until_cleanup.isSome
  | _ => false

/-- Model of `self.__auth_config[field]` for the three reloadable fields. -/
def authFieldGet (a : AuthConfig) : String → Option Int
  | "session_lifetime" => a.session_lifetime
  | "refresh_time" => a.refresh_time
  | "logins_until_cleanup" => a.logins_until_cleanup
  | _ => none

/-- Model of `self.__auth_config[field] = new_value`. -/
def authFieldSet (a : AuthConfig) (field : String) (v : Int) : AuthConfig :=
  match field with
  | "session_lifetime" => { a with session_lifetime := some v }
  | "refresh_time" => { a with refresh_time := some v }
  | "logins_until_cleanup" => { a with logins_until_cleanup := some v }
  | _ => a

/-- Model of `cfg_dict['authentication'].get(field, 0)`. -/
def docFieldGet (d : AuthDoc) : String → Option Int
  | "session_lifetime" => d.session_lifetime
  | "refresh_time" => d.refresh_time
  | "logins_until_cleanup" => d.logins_until_cleanup
  | _ => none

/-- One iteration of the `for field in auth_fields_to_update` loop of
`reload_config`: a field present in the live configuration is compared
with `cfg_dict['authentication'].get(field, 0)` — reading
`cfg_dict['authentication']` of a document without that key raises
`KeyError`, which the surrounding `except ValueError` does *not* catch. -/
def reloadAuthField (cfg : CfgDoc) (acc : Except PyErr (SMState × Bool))
    (field : String) : Except PyErr (SMState × Bool) :=
  match acc with
  | .error e => .error e
  | .ok (st, upd) =>
    if authFieldPresent st.auth field then
      match cfg.authentication with
      | none => .error .keyError
      | some ad =>
        let newv : Int := (docFieldGet ad field).getD 0
        if authFieldGet st.auth field ≠ some newv then
          .ok ({ st with auth := authFieldSet st.auth field newv }, true)
        else .ok (st, upd)
    else .ok (st, upd)

/-- Model of `SessionManager.__get_config_dict`, applied to the result `loaded` of
`load_json` (an external collaborator): a parse failure yields the empty
default `{}` (`loaded = none`), on which a `ValueError` is raised;
otherwise the parsed document is returned. -/
def getConfigDict (loaded : Option CfgDoc) : Except PyErr CfgDoc :=
  match loaded with
  | none => .error .valueError
  | some cfg => .ok cfg

/-- Model of `SessionManager.reload_config`, applied to the result of re-parsing the
configuration source. A `ValueError` from `__get_config_dict` is caught by
the `except ValueError` handler after logging — nothing has been mutated
at that point, so the state is returned unchanged. On a parsed document,
`max_run_count` and the `store` block are updated when changed, then the
three session policy fields; if any changed, every cached session's
`session_lifetime`/`refresh_time` is rewritten in place (note the direct
assignment: a raw `0` is stored as `some 0`, not normalised as the
`_Session` constructor would). A `KeyError` inside the body is not caught. -/
def reloadConfig (loaded : Option CfgDoc) (st : SMState) : Except PyErr SMState :=
  match getConfigDict loaded with
  | .error .valueError => .ok st
  | .error e => .error e
  | .ok cfg =>
    let st := if st.max_run_count ≠ cfg.max_run_count then
                { st with max_run_count := cfg.max_run_count } else st
    let st := if st.store_config ≠ cfg.store then
                { st with store_config := cfg.store } else st
    match reloadFields.foldl (reloadAuthField cfg) (.ok (st, false)) with
    | .error e => .error e
    | .ok (st, update_sessions) =>
      if update_sessions then
        match st.auth.session_lifetime with
        | none => .error .keyError
        | some lt =>
          match st.auth.refresh_time with
          | none => .error .keyError
          | some rt =>
            .ok { st with sessions := st.sessions.map (fun s =>
                    { s with session_lifetime := lt, refresh_time := some rt }) }
      else .ok st

/-! ## OAuth provider configuration -/

/-- Model of `SessionManager.get_oauth_providers`: the names of the enabled
providers. -/
def getOauthProviders (st : SMState) : List String :=
  match st.auth.method_oauth with
  | none => []
  | some oc => (oc.providers.filter (fun p => p.2.enabled)).map (·.1)

/-- Dict lookup in the providers table. -/
def lookupProvider (oc : OAuthCfg) (name : String) : Option ProviderCfg :=
  (oc.providers.find? (fun p => p.1 == name)).map (·.2)

/-- Model of `providers[name]['enabled'] = False`. -/
def setProviderEnabledFalse (oc : OAuthCfg) (name : String) : OAuthCfg :=
  { oc with providers := oc.providers.map (fun p =>
      if p.1 == name then (p.1, { p.2 with enabled := false }) else p) }

/-- Model of `SessionManager.get_oauth_config`: fetch the provider's configuration;
if its `client_secret` or `client_id` is missing or still carries the
documented example placeholder, set its `enabled` flag to `False` first
(the write uses plain subscripts, so it raises `KeyError` when the
`method_oauth` block or the provider is absent), and return the
(re-read, hence possibly just-disabled) configuration. -/
def getOauthConfig (provider : String) (st : SMState) :
    Except PyErr (Option ProviderCfg × SMState) :=
  let provider_cfg := match st.auth.method_oauth with
    | none => none
    | some oc => lookupProvider oc provider
  let placeholder :=
    ((provider_cfg.bind (·.client_secret)).getD "ExampleClientSecret" == "ExampleClientSecret")
    || ((provider_cfg.bind (·.client_id)).getD "ExampleClientID" == "ExampleClientID")
  if placeholder then
    match st.auth.method_oauth with
    | none => .error .keyError
    | some oc =>
      match lookupProvider oc provider with
      | none => .error .keyError
      | some _ =>
        let oc' := setProviderEnabledFalse oc provider
        let st' := { st with auth := { st.auth with method_oauth := some oc' } }
        .ok (lookupProvider oc' provider, st')
  else .ok (provider_cfg, st)

/-- Model of `SessionManager.check_callback_url_format`: a provider name containing
`'@'` yields `None` (falsy); otherwise the result of `re.match` of the
documented callback pattern, supplied by the `callback_match` oracle. -/
def check_callback_url_format (env : Env) (provider_name callback_url : String) :
    Option Bool :=
  if provider_name.data.contains '@' then none
  else some (env.callback_match provider_name callback_url)

/-- Model of `provider.setdefault(item, default)` over the items of a template:
keys not yet present are appended in template order. -/
def setDefaults (params : List (String × String)) :
    List (String × String) → List (String × String)
  | [] => params
  | (k, v) :: rest =>
    if (params.find? (fun p => p.1 == k)).isSome then setDefaults params rest
    else setDefaults (params ++ [(k, v)]) rest

/-- Python `dict` assignment `d[k] = v` on an assoc list. -/
def dictSet (l : List (String × String)) (k v : String) : List (String × String) :=
  if (l.find? (fun p => p.1 == k)).isSome then
    l.map (fun p => if p.1 == k then (p.1, v) else p)
  else l ++ [(k, v)]

/-- Python `dict.update`. -/
def dictUpdate (l : List (String × String)) (kvs : List (String × String)) :
    List (String × String) :=
  kvs.foldl (fun acc p => dictSet acc p.1 p.2) l

/-- Python `del d[k]`. -/
def dictDel (l : List (String × String)) (k : String) : List (String × String) :=
  l.filter (fun p => ¬ (p.1 == k))

/-- The substitution variable set of `__oauth_apply_templates`: shared
variables overridden by the provider's own, plus `provider`; a `host`
still at the documented placeholder is dropped. -/
def mkOauthVars (shared pvars : List (String × String)) (provider_name : String) :
    List (String × String) :=
  let vs := dictUpdate (dictUpdate [] shared) pvars
  let vs := dictSet vs "provider" provider_name
  if lookupStr vs "host" == some "https://<server_host>" then dictDel vs "host"
  else vs

/-- The `for param, param_value in provider.items()` substitution loop over
the non-skipped params: a `KeyError` from `str.format` disables the
provider and breaks out (the remaining params keep their raw values); a
`callback_url` whose checked format is not `True` disables the provider
and the loop continues. -/
def substLoop (env : Env) (vars : List (String × String)) (provider_name : String)
    (enabled : Bool) : List (String × String) → List (String × String) × Bool
  | [] => ([], enabled)
  | (param, value) :: rest =>
    match pyFormat value vars with
    | none => ((param, value) :: rest, false)
    | some w =>
      let enabled' :=
        if param == "callback_url" &&
            ¬ (check_callback_url_format env provider_name w == some true)
        then false else enabled
      let p := substLoop env vars provider_name enabled' rest
      ((param, w) :: p.1, p.2)

/-- Per-provider body of `__oauth_apply_templates`: skip disabled
providers; resolve the template (a missing template, or the bare
`default` template, disables the provider); apply template defaults;
build the variable set; run the substitution loop. -/
def processProvider (env : Env) (shared : List (String × String))
    (provider_name : String) (p : ProviderCfg) : ProviderCfg :=
  if ¬ p.enabled then p
  else
    let template_name := p.template.getD "default"
    match env.templates template_name with
    | none => { p with enabled := false }
    | some tmpl =>
      if template_name == "default" then { p with enabled := false }
      else
        let params := setDefaults p.params tmpl
        let vars := mkOauthVars shared p.vars provider_name
        let q := substLoop env vars provider_name p.enabled params
        { p with params := q.1, enabled := q.2 }

/-- Model of `SessionManager.__oauth_apply_templates`: every provider is processed
independently against the shared variables. -/
def oauthApplyTemplates (env : Env) (oc : OAuthCfg) : OAuthCfg :=
  { oc with providers := oc.providers.map (fun p =>
      (p.1, processProvider env oc.shared_variables p.1 p.2)) }

/-! ## Spec-side definitions

Definitions following the specification's words, to be compared with the
source translations above. -/

/-- Spec side: the generic ordered, short-circuiting validator chain —
"iterate an ordered list; first success short-circuits". -/
def firstSomeChain
    (vs : List (String → SMState → Except PyErr (Option Validation × SMState)))
    (auth_string : String) (st : SMState) :
    Except PyErr (Option Validation × SMState) :=
  match vs with
  | [] => .ok (none, st)
  | f :: rest =>
    match f auth_string st with
    | .error e => .error e
    | .ok (some v, st') => .ok (some v, st')
    | .ok (none, st') => firstSomeChain rest auth_string st'

/-- Spec side: the validator chain in the documented fixed order — personal
access token, then dictionary, then PAM, then LDAP — followed by the group
resolver. -/
def handleValidationSpec (env : Env) (auth_string : String) (st : SMState) :
    Except PyErr (Option Validation × SMState) :=
  match firstSomeChain
      [tryPersonalAccessToken env, tryAuthDictionary env,
       tryAuthPam env, tryAuthLdap env] auth_string st with
  | .error e => .error e
  | .ok (none, st1) => .ok (none, st1)
  | .ok (some v, st1) => regexExtend st1 v

/-- The multiset of session tokens persisted in a store (order preserved);
used to state that an operation inserts no new record. -/
def storeTokens (db : Option Store) : List String :=
  match db with
  | none => []
  | some store => store.sessions.map (·.token)

/-! ## Concrete fixtures for witnesses and counterexamples -/

/-- An `authentication` configuration with everything off. -/
def cfgBase : AuthConfig :=
  { enabled := false, session_lifetime := none, refresh_time := none,
    logins_until_cleanup := none, super_user := none,
    regex_groups_enabled := false, group_regexes := [],
    method_dictionary := none, method_pam := none, method_ldap := none,
    method_oauth := none }

/-- A minimal enabled configuration: lifetime 3600, pruning every 100
logins. -/
def cfgEnabled : AuthConfig :=
  { cfgBase with enabled := true, session_lifetime := some 3600,
                 logins_until_cleanup := some 100 }

/-- An empty `store` block. -/
def storeCfg0 : StoreCfg :=
  { analysis_statistics_dir := none, failure_zip_size := none,
    compilation_database_size := none }

/-- An empty persisted store. -/
def storeEmpty : Store := { sessions := [], pats := [], systemPerms := [] }

/-- A neutral environment: clock at 1000, all collaborators refusing. -/
def envBase : Env :=
  { now := 1000, fresh_token := "newtok", unsupported := [],
    pam_auth := fun _ _ => false, hashlib := fun _ => none,
    templates := fun _ => none, callback_match := fun _ _ => false }

/-- Build a manager state from a configuration and a database. -/
def mkState (a : AuthConfig) (db : Option Store) : SMState :=
  { sessions := [], db := db, logins_since_prune := 0, max_run_count := none,
    store_config := storeCfg0, auth := a, refresh_time_mgr := none }

/-- Manager state for the exception-escape scenario: authentication
enabled, a connected (empty) database, pruning far away. -/
def stC1 : SMState := mkState cfgEnabled (some storeEmpty)

/-- A session whose refresh time and lifetime have both elapsed at
time 1000. -/
def sessC3 : LocalSession :=
  { token := "tok3", user := "carol", groups := [], session_lifetime := 100,
    refresh_time := some 10, is_root := false, database := true,
    last_access := 0 }

/-- The persisted row of `sessC3`. -/
def recC3 : SessionRecord :=
  { token := "tok3", user_name := "carol", groups := "", last_access := 0 }

/-- The configuration of the pruning scenario. -/
def cfgC3 : AuthConfig :=
  { cfgEnabled with session_lifetime := some 100, refresh_time := some 10 }

/-- Manager state for the pruning scenario: one expired cached session with
its persisted row. -/
def stC3 : SMState :=
  { sessions := [sessC3],
    db := some { sessions := [recC3], pats := [], systemPerms := [] },
    logins_since_prune := 0, max_run_count := none, store_config := storeCfg0,
    auth := cfgC3, refresh_time_mgr := some 10 }

/-- A persisted session row for the bearer-token rehydration scenario. -/
def recC4 : SessionRecord :=
  { token := "tokD", user_name := "dave", groups := "", last_access := 0 }

/-- Manager state for the bearer-token rehydration scenario. -/
def stC4 : SMState :=
  mkState cfgEnabled (some { sessions := [recC4], pats := [], systemPerms := [] })

/-- The local session rebuilt from `recC4`. -/
def lsC4 : LocalSession :=
  mkSession "tokD" "dave" [] 3600 none false true (some 0) 1000

/-- The configuration of the PAM + regex-groups scenario: PAM enabled, an
always-matching regex group. -/
def cfgC5 : AuthConfig :=
  { cfgEnabled with method_pam := some true, regex_groups_enabled := true,
                    group_regexes := [("admins", [fun _ => true])] }

/-- Manager state for the PAM + regex-groups scenario. -/
def stC5 : SMState := mkState cfgC5 none

/-- An environment whose PAM collaborator accepts everything. -/
def envPam : Env := { envBase with pam_auth := fun _ _ => true }

/-- The configuration of the dictionary + regex-groups scenario. -/
def cfgC5w : AuthConfig :=
  { cfgEnabled with
      method_dictionary := some { enabled := true, auths := ["bob:pw"], groups := none },
      regex_groups_enabled := true,
      group_regexes := [("admins", [fun _ => true])] }

/-- Manager state for the dictionary + regex-groups scenario. -/
def stC5w : SMState := mkState cfgC5w none

/-- An OAuth provider left at the documented `client_id` placeholder but
explicitly enabled. -/
def provPlaceholder : ProviderCfg :=
  { enabled := true, client_id := some "ExampleClientID",
    client_secret := some "secret123", template := some "github/v1",
    vars := [], params := [] }

/-- The OAuth block carrying only the placeholder provider `gh`. -/
def oauthC6 : OAuthCfg :=
  { enabled := true, shared_variables := [], providers := [("gh", provPlaceholder)] }

/-- Manager state carrying only the placeholder provider `gh`. -/
def stC6 : SMState :=
  mkState { cfgBase with enabled := true, method_oauth := some oauthC6 } none

/-- An environment knowing the `github/v1` template (with no default
fields). -/
def envTmpl : Env :=
  { envBase with templates := fun t => if t == "github/v1" then some [] else none }

/-- A provider whose name will contain `'@'`, with a substitutable
`callback_url`. -/
def provAtSign : ProviderCfg :=
  { enabled := true, client_id := some "id", client_secret := some "sec",
    template := some "github/v1", vars := [],
    params := [("callback_url", "cb")] }

/-- The credential entry of the dictionary scenario as the specification
prints it (63 hex digits). -/
def entryBad : String :=
  "alice:5e884898da28047151d0e56f8dc6292773603d0d6aabbdd62a11ef721d1542d:sha256"

/-- The same entry with the full 64-digit SHA-256 digest of `"password"`. -/
def entryGood : String :=
  "alice:5e884898da28047151d0e56f8dc6292773603d0d6aabbdd62a11ef721d1542d8:sha256"

/-- Manager state with the dictionary backend enabled and containing
exactly the given entry. -/
def stDict (entry : String) : SMState :=
  mkState
    { cfgEnabled with
        method_dictionary := some { enabled := true, auths := [entry], groups := none } }
    none

/-- An environment whose `hashlib` collaborator provides `sha256`. -/
def envSha : Env :=
  { envBase with hashlib := fun alg => if alg == "sha256" then some sha256Hex else none }

/-- A session with lifetime 10 used by the dead-session and
disabled-authentication scenarios. -/
def sessC2 : LocalSession :=
  { token := "tok2", user := "erin", groups := [], session_lifetime := 10,
    refresh_time := none, is_root := false, database := true,
    last_access := 0 }

/-- Manager state with authentication disabled but a cached session and a
persisted row present. -/
def stC10 : SMState :=
  { sessions := [sessC2],
    db := some { sessions := [{ token := "tok2", user_name := "erin",
                                groups := "", last_access := 0 }],
                 pats := [], systemPerms := [] },
    logins_since_prune := 0, max_run_count := none, store_config := storeCfg0,
    auth := { cfgBase with session_lifetime := some 3600 },
    refresh_time_mgr := none }

/-! ## Helper lemmas -/

/-- A session dead at `t` is dead at every later time. -/
theorem is_alive_mono_dead {s : LocalSession} {t u : Int}
    (h : is_alive t s = false) (htu : t ≤ u) : is_alive u s = false := by
  simp only [is_alive, decide_eq_false_iff_not, not_le] at h ⊢
  omega

/-- Lemma: `revalidate` is the identity on a session past its lifetime. -/
theorem revalidate_dead {s : LocalSession} {u : Int} {db : Option Store}
    (h : is_alive u s = false) : revalidate u s db = (s, db) := by
  simp [revalidate, h]

/-- Folding `revalidate` over any times at which the session is already
dead changes nothing. -/
theorem foldl_revalidate_dead {s : LocalSession} {t : Int} {db : Option Store}
    (hdead : is_alive t s = false) :
    ∀ l : List Int, (∀ u ∈ l, t ≤ u) →
      l.foldl (fun p u => revalidate u p.1 p.2) (s, db) = (s, db) := by
  intro l
  induction l with
  | nil => intro _; rfl
  | cons u rest ih =>
    intro hm
    have hu : t ≤ u := hm u (List.mem_cons_self u rest)
    rw [List.foldl_cons]
    have hstep : revalidate u s db = (s, db) :=
      revalidate_dead (is_alive_mono_dead hdead hu)
    simp only [hstep]
    exact ih (fun v hv => hm v (List.mem_cons_of_mem u hv))

/-! ## Claims -/

/-- Claim C1 (code bug): the lifecycle and validator operations are
supposed never to let an exception escape, resolving every failure to a
typed result (session object, `None`, or `False`). The code violates this:
with authentication enabled and a database connection configured, a
credential string containing no `':'` makes `create_session` raise
`ValueError` — `user_name, token = auth_string.split(':', 1)` in
`__try_auth_token` sits outside the `try` block. -/
theorem create_session_uncaught_valueerror :
    createSession envBase "nocolon" stC1 = .error .valueError := by rfl

/-- Claim C2: a session is alive iff `now - last_access ≤
session_lifetime`, and once dead it is never resurrected: no sequence of
`revalidate` calls at later times changes the session (in particular its
`last_access`) or makes it alive again. -/
theorem alive_iff_and_dead_never_resurrected
    (s : LocalSession) (t : Int) (db : Option Store) (ts : List Int)
    (hdead : is_alive t s = false)
    (hmono : ∀ u ∈ ts, t ≤ u) :
    (∀ (now : Int) (s' : LocalSession),
        is_alive now s' = true ↔ now - s'.last_access ≤ s'.session_lifetime) ∧
    ts.foldl (fun p u => revalidate u p.1 p.2) (s, db) = (s, db) ∧
    (∀ t', t ≤ t' →
      is_alive t' (ts.foldl (fun p u => revalidate u p.1 p.2) (s, db)).1 = false) := by
  have hfold := @foldl_revalidate_dead s t db hdead ts hmono
  refine ⟨fun now s' => by simp [is_alive], hfold, fun t' ht' => ?_⟩
  rw [hfold]
  exact is_alive_mono_dead hdead ht'

/-- Witness for C2 at a concrete dead session and two later times. -/
theorem alive_iff_and_dead_never_resurrected_witness :
    (∀ (now : Int) (s' : LocalSession),
        is_alive now s' = true ↔ now - s'.last_access ≤ s'.session_lifetime) ∧
    [1000, 2000].foldl (fun p u => revalidate u p.1 p.2)
      (sessC2, (none : Option Store)) = (sessC2, none) ∧
    (∀ t', (1000 : Int) ≤ t' →
      is_alive t' ([1000, 2000].foldl (fun p u => revalidate u p.1 p.2)
        (sessC2, (none : Option Store))).1 = false) :=
  alive_iff_and_dead_never_resurrected sessC2 1000 none [1000, 2000]
    (by decide) (by decide)

/-- Claim C3 (code bug): pruning is supposed to remove sessions past their
lifetime from both the local cache and the persisted store. The code
violates this: `sessC3` is past its lifetime at time 1000, yet
`__cleanup_sessions` evicts it from the local cache in the first
(refresh-expiry) pass, so the second pass never sees it and its persisted
row survives. -/
theorem cleanup_keeps_expired_record :
    is_alive envBase.now sessC3 = false ∧
    (cleanupSessions envBase stC3).sessions = [] ∧
    (cleanupSessions envBase stC3).db =
      some { sessions := [recC3], pats := [], systemPerms := [] } :=
  ⟨by decide, by decide, by decide⟩

/-- Claim C8: when re-reading the configuration source yields an empty or
invalid document, `reload_config` aborts as a caught, non-fatal
`ValueError` and the entire prior state — `max_run_count`, the `store`
block, the session policy fields, and every cached session — is returned
exactly unchanged; nothing was partially applied. -/
theorem reload_invalid_config_keeps_state
    (loaded : Option CfgDoc) (st : SMState)
    (h : getConfigDict loaded = .error .valueError) :
    reloadConfig loaded st = .ok st := by
  unfold reloadConfig
  rw [h]

/-- Witness for C8 on a state with a cached session and full configuration. -/
theorem reload_invalid_config_keeps_state_witness :
    reloadConfig none stC3 = .ok stC3 :=
  reload_invalid_config_keeps_state none stC3 (by rfl)

/-- Claim C10: with authentication disabled, `get_session` returns `None`
immediately and the state — local cache and persisted store included — is
untouched: no lookup result is produced and no invalidation happens. -/
theorem get_session_disabled_none
    (env : Env) (token : String) (st : SMState)
    (h : st.auth.enabled = false) :
    getSession env token st = (none, st) := by
  simp [getSession, h]

/-- Witness for C10: a disabled manager holding a cached session and a
persisted row for the requested token still answers `None` and keeps both. -/
theorem get_session_disabled_none_witness :
    getSession envBase "tok2" stC10 = (none, stC10) :=
  get_session_disabled_none envBase "tok2" stC10 (by rfl)

/-- The nested `or`-chain of `__handle_validation` equals the generic
ordered first-success chain over the validators in source order. -/
theorem validationChainRaw_eq_firstSome (env : Env) (auth_string : String) (st : SMState) :
    validationChainRaw env auth_string st =
      firstSomeChain [tryPersonalAccessToken env, tryAuthDictionary env,
                      tryAuthPam env, tryAuthLdap env] auth_string st := by
  unfold validationChainRaw
  cases h1 : tryPersonalAccessToken env auth_string st with
  | error e => simp [firstSomeChain, h1]
  | ok p1 =>
    obtain ⟨v1, st1⟩ := p1
    cases v1 with
    | some v => simp [firstSomeChain, h1]
    | none =>
      simp only [firstSomeChain, h1]
      cases h2 : tryAuthDictionary env auth_string st1 with
      | error e => simp [firstSomeChain, h2]
      | ok p2 =>
        obtain ⟨v2, st2⟩ := p2
        cases v2 with
        | some v => simp [firstSomeChain, h2]
        | none =>
          simp only [firstSomeChain, h2]
          cases h3 : tryAuthPam env auth_string st2 with
          | error e => simp [firstSomeChain, h3]
          | ok p3 =>
            obtain ⟨v3, st3⟩ := p3
            cases v3 with
            | some v => simp [firstSomeChain, h3]
            | none =>
              simp only [firstSomeChain, h3]
              cases h4 : tryAuthLdap env auth_string st3 with
              | error e => simp [firstSomeChain, h4]
              | ok p4 =>
                obtain ⟨v4, st4⟩ := p4
                cases v4 with
                | some v => simp [firstSomeChain, h4]
                | none => simp [firstSomeChain, h4]

/-- Lemma: `revalidate` never changes the session's token. -/
theorem revalidate_fst_token (now : Int) (s : LocalSession) (db : Option Store) :
    (revalidate now s db).1.token = s.token := by
  unfold revalidate
  split
  · rfl
  · split
    · cases db <;> rfl
    · rfl

/-- Updating a record's `last_access` in place preserves the token column. -/
theorem updateFirstRecord_tokens (u t : String) (la : Int) (l : List SessionRecord) :
    (updateFirstRecord u t la l).map (·.token) = l.map (·.token) := by
  induction l with
  | nil => rfl
  | cons r rest ih =>
    unfold updateFirstRecord
    split <;> simp [ih]

/-- Lemma: `revalidate` inserts no record: the persisted token column is
unchanged. -/
theorem storeTokens_revalidate (now : Int) (s : LocalSession) (db : Option Store) :
    storeTokens (revalidate now s db).2 = storeTokens db := by
  unfold revalidate
  split
  · rfl
  · split
    · cases db with
      | none => rfl
      | some store => simp [storeTokens, updateFirstRecord_tokens]
    · rfl

/-- A session rebuilt from the store carries the requested token. -/
theorem getLocalSessionFromDb_token {env : Env} {st : SMState} {token : String}
    {ls : LocalSession} (h : getLocalSessionFromDb env st token = some ls) :
    ls.token = token := by
  unfold getLocalSessionFromDb at h
  rcases hdb : st.db with _ | store
  · simp only [hdb] at h; exact Option.noConfusion h
  · simp only [hdb] at h
    rcases hf : store.sessions.find? (fun r => r.token == token) with _ | r
    · simp only [hf] at h; exact Option.noConfusion h
    · simp only [hf] at h
      unfold createLocalSession at h
      rcases hl : st.auth.session_lifetime with _ | lt
      · simp only [hl] at h; exact Option.noConfusion h
      · simp only [hl, Option.some.injEq] at h
        rw [← h]
        rfl

/-- Claim C4: `create_session` tries the validators in the fixed order —
bearer session-token lookup first, then personal access token, dictionary,
PAM, LDAP — short-circuiting at the first success. Conjunct 1: the
fallback chain equals the generic ordered first-success chain over
(personal access token, dictionary, PAM, LDAP) followed by the group
resolver. Conjuncts 2–4: when the bearer lookup hits a stored record (and
pruning is not due), `create_session` returns the session rebuilt from the
store and revalidated — it carries the record's existing token, not a
freshly minted one, and no new record is inserted — without consulting the
fallback validators. -/
theorem create_session_validator_order
    (env : Env) (auth_string : String) (st : SMState)
    (record : SessionRecord) (ls : LocalSession) (k : Int)
    (hen : st.auth.enabled = true)
    (hk : st.auth.logins_until_cleanup = some k)
    (hnc : st.logins_since_prune + 1 < k)
    (hrec : tryAuthToken st.db auth_string = .ok (some record))
    (hloc : getLocalSessionFromDb env
        { st with logins_since_prune := st.logins_since_prune + 1 }
        record.token = some ls) :
    (∀ (env' : Env) (auth' : String) (st' : SMState),
        handleValidation env' auth' st' = handleValidationSpec env' auth' st') ∧
    createSession env auth_string st =
      .ok (.session (revalidate env.now ls st.db).1,
        { st with logins_since_prune := st.logins_since_prune + 1,
                  db := (revalidate env.now ls st.db).2,
                  sessions := st.sessions ++ [(revalidate env.now ls st.db).1] }) ∧
    (revalidate env.now ls st.db).1.token = record.token ∧
    storeTokens (revalidate env.now ls st.db).2 = storeTokens st.db := by
  refine ⟨fun env' auth' st' => ?_, ?_, ?_, storeTokens_revalidate env.now ls st.db⟩
  · unfold handleValidation handleValidationSpec
    rw [validationChainRaw_eq_firstSome]
  · have hcl : ¬ (st.logins_since_prune + 1 ≥ k) := by omega
    unfold createSession
    simp [hen, hk, hcl, hrec, hloc]
  · rw [revalidate_fst_token]
    exact getLocalSessionFromDb_token hloc

/-- Witness for C4: a manager holding the persisted row `recC4` answers the
bearer credential `dave:tokD` with the rehydrated session. -/
theorem create_session_validator_order_witness :
    (∀ (env' : Env) (auth' : String) (st' : SMState),
        handleValidation env' auth' st' = handleValidationSpec env' auth' st') ∧
    createSession envBase "dave:tokD" stC4 =
      .ok (.session (revalidate envBase.now lsC4 stC4.db).1,
        { stC4 with logins_since_prune := stC4.logins_since_prune + 1,
                    db := (revalidate envBase.now lsC4 stC4.db).2,
                    sessions := stC4.sessions ++ [(revalidate envBase.now lsC4 stC4.db).1] }) ∧
    (revalidate envBase.now lsC4 stC4.db).1.token = recC4.token ∧
    storeTokens (revalidate envBase.now lsC4 stC4.db).2 = storeTokens stC4.db :=
  create_session_validator_order envBase "dave:tokD" stC4 recC4 lsC4 100
    (by rfl) (by rfl) (by decide) (by rfl) (by decide)

/-- Membership in the regex-group resolver result: the group is granted iff
the feature is enabled and one of the group's patterns matches. -/
theorem mem_tryRegexGroups (a : AuthConfig) (u g : String) :
    g ∈ tryRegexGroups a u ↔
      a.regex_groups_enabled = true ∧
      ∃ rs, (g, rs) ∈ a.group_regexes ∧ ∃ r ∈ rs, r u = true := by
  unfold tryRegexGroups
  by_cases h : a.regex_groups_enabled
  · simp only [h, not_true, if_false, ite_false, List.mem_map, List.mem_filter,
      true_and, if_neg (by simp : ¬ ¬ True)]
    constructor
    · rintro ⟨⟨gn, rs⟩, hp, hfst⟩
      simp only [List.mem_filter] at hp
      cases hfst
      refine ⟨rs, hp.1, ?_⟩
      simpa [List.any_eq_true] using hp.2
    · rintro ⟨rs, hmem, r, hr, hru⟩
      refine ⟨(g, rs), ?_, rfl⟩
      simp only [List.mem_filter]
      exact ⟨hmem, by simp [List.any_eq_true]; exact ⟨r, hr, hru⟩⟩
  · simp [h]

/-- Claim C5 (counterexample): the claim as stated fails — a credential
accepted by the PAM validator (whose validation carries no `'groups'`
key) together with a matching enabled regex group makes `create_session`
raise `KeyError` instead of returning a session whose groups are the
union. -/
theorem create_session_pam_regex_keyerror :
    createSession envPam "eve:pw" stC5 = .error .keyError := by rfl

/-- Claim C5 (amended): for every credential accepted by a fallback-chain
validator that yields a groups list, `__handle_validation` returns the
same username with groups equal — as a set — to the union of the
validator's groups and the names of every enabled regex group one of
whose patterns matches the username; the regex groups are added to, and
never replace, the validator's groups. -/
theorem handle_validation_groups_union
    (env : Env) (auth_string : String) (st st1 : SMState)
    (v : Validation) (gs : List String)
    (hchain : validationChainRaw env auth_string st = .ok (some v, st1))
    (hgs : v.groups = some gs) :
    ∃ gs', handleValidation env auth_string st = .ok (some ⟨v.username, some gs'⟩, st1) ∧
      ∀ g, g ∈ gs' ↔ g ∈ gs ∨
        (st1.auth.regex_groups_enabled = true ∧
         ∃ rs, (g, rs) ∈ st1.auth.group_regexes ∧ ∃ r ∈ rs, r v.username = true) := by
  obtain ⟨vu, vg⟩ := v
  simp only at hgs
  subst hgs
  unfold handleValidation
  rw [hchain]
  unfold regexExtend
  by_cases hx : tryRegexGroups st1.auth vu = []
  · refine ⟨gs, ?_, ?_⟩
    · simp [hx]
    · intro g
      rw [← mem_tryRegexGroups st1.auth vu g]
      simp [hx]
  · refine ⟨(gs ++ tryRegexGroups st1.auth vu).dedup, ?_, ?_⟩
    · simp [hx]
    · intro g
      rw [← mem_tryRegexGroups st1.auth vu g]
      simp [List.mem_dedup]

/-- Witness for C5 (amended): the dictionary validator accepts `bob:pw`
with empty groups, and the always-matching regex rule grants `admins`. -/
theorem handle_validation_groups_union_witness :
    ∃ gs', handleValidation envBase "bob:pw" stC5w =
        .ok (some ⟨"bob", some gs'⟩, stC5w) ∧
      ∀ g, g ∈ gs' ↔ g ∈ ([] : List String) ∨
        (stC5w.auth.regex_groups_enabled = true ∧
         ∃ rs, (g, rs) ∈ stC5w.auth.group_regexes ∧ ∃ r ∈ rs, r "bob" = true) :=
  handle_validation_groups_union envBase "bob:pw" stC5w stC5w ⟨"bob", some []⟩ []
    (by rfl) (by rfl)

/-- List-level core of `lookupProvider_setFalse`. -/
theorem find_map_setFalse (name : String) (p : ProviderCfg) :
    ∀ l : List (String × ProviderCfg),
      (l.find? (fun q => q.1 == name)).map (·.2) = some p →
      ((l.map (fun q =>
          if q.1 == name then (q.1, { q.2 with enabled := false }) else q)).find?
            (fun q => q.1 == name)).map (·.2) = some { p with enabled := false } := by
  intro l
  induction l with
  | nil => intro h; simp at h
  | cons a rest ih =>
    intro h
    rcases hb : (a.1 == name) with _ | _
    · simp only [List.find?_cons, hb] at h
      simp only [List.map_cons, hb, List.find?_cons, Bool.false_eq_true, if_false]
      exact ih h
    · simp only [List.find?_cons, hb, Option.map_some', Option.some.injEq] at h
      subst h
      simp only [List.map_cons, hb, if_true, List.find?_cons]
      simp [hb]

/-- After `setProviderEnabledFalse`, looking the provider up yields its
configuration with `enabled := false`. -/
theorem lookupProvider_setFalse (oc : OAuthCfg) (name : String) (p : ProviderCfg)
    (h : lookupProvider oc name = some p) :
    lookupProvider (setProviderEnabledFalse oc name) name =
      some { p with enabled := false } := by
  unfold lookupProvider setProviderEnabledFalse
  exact find_map_setFalse name p oc.providers h

/-- Every entry of the provider table named `name` is disabled after
`setProviderEnabledFalse`. -/
theorem setFalse_all_disabled (oc : OAuthCfg) (name : String) :
    ∀ q ∈ (setProviderEnabledFalse oc name).providers,
      q.1 = name → q.2.enabled = false := by
  intro q hq hname
  unfold setProviderEnabledFalse at hq
  simp only [List.mem_map] at hq
  obtain ⟨a, ha, hq⟩ := hq
  by_cases h : a.1 == name
  · rw [if_pos h] at hq
    subst hq
    rfl
  · rw [if_neg h] at hq
    subst hq
    exact absurd (by simp [hname]) h

/-- A name all of whose table entries are disabled is not listed among the
enabled providers. -/
theorem not_mem_enabled_providers (l : List (String × ProviderCfg)) (name : String)
    (h : ∀ q ∈ l, q.1 = name → q.2.enabled = false) :
    name ∉ (l.filter (fun q => q.2.enabled)).map (·.1) := by
  intro hmem
  simp only [List.mem_map, List.mem_filter] at hmem
  obtain ⟨q, ⟨hin, hen⟩, hq⟩ := hmem
  rw [h q hin hq] at hen
  exact Bool.noConfusion hen

/-- Claim C6 (counterexample): the claim as stated fails — a provider left
at the placeholder `client_id` but configured `enabled: true` *is* listed
by `get_oauth_providers` as long as `get_oauth_config` has not yet been
called for it; the placeholder check lives only in `get_oauth_config`. -/
theorem get_oauth_providers_lists_placeholder :
    provPlaceholder.client_id = some "ExampleClientID" ∧
    provPlaceholder.enabled = true ∧
    getOauthProviders stC6 = ["gh"] :=
  ⟨rfl, rfl, by decide⟩

/-- Claim C6 (amended): at the first read of its configuration through
`get_oauth_config`, a provider whose `client_id`/`client_secret` is
missing or still carries the documented example placeholder is disabled
regardless of its `enabled` flag: the returned configuration says
`enabled = false` and the provider is not listed by `get_oauth_providers`
on the resulting state. -/
theorem get_oauth_config_placeholder_disables
    (st : SMState) (oc : OAuthCfg) (provider : String) (p : ProviderCfg)
    (hoc : st.auth.method_oauth = some oc)
    (hp : lookupProvider oc provider = some p)
    (hplace : ((p.client_secret.getD "ExampleClientSecret" == "ExampleClientSecret")
        || (p.client_id.getD "ExampleClientID" == "ExampleClientID")) = true) :
    ∃ st', getOauthConfig provider st = .ok (some { p with enabled := false }, st') ∧
      provider ∉ getOauthProviders st' := by
  refine ⟨{ st with auth := { st.auth with
              method_oauth := some (setProviderEnabledFalse oc provider) } }, ?_, ?_⟩
  · unfold getOauthConfig
    simp [hoc, hp, hplace, lookupProvider_setFalse oc provider p hp]
  · show provider ∉ ((setProviderEnabledFalse oc provider).providers.filter
        (fun q => q.2.enabled)).map (·.1)
    exact not_mem_enabled_providers _ _ (setFalse_all_disabled oc provider)

/-- Witness for C6 (amended) on the placeholder provider `gh`. -/
theorem get_oauth_config_placeholder_disables_witness :
    ∃ st', getOauthConfig "gh" stC6 =
        .ok (some { provPlaceholder with enabled := false }, st') ∧
      "gh" ∉ getOauthProviders st' :=
  get_oauth_config_placeholder_disables stC6 oauthC6 "gh" provPlaceholder
    (by rfl) (by rfl) (by rfl)

/-- Once disabled inside the substitution loop, a provider stays disabled:
the loop never sets `enabled` back to true. -/
theorem substLoop_false (env : Env) (vars : List (String × String)) (name : String) :
    ∀ l, (substLoop env vars name false l).2 = false := by
  intro l
  induction l with
  | nil => rfl
  | cons kv rest ih =>
    obtain ⟨param, value⟩ := kv
    unfold substLoop
    cases hf : pyFormat value vars with
    | none => rfl
    | some w =>
      simp only [ite_self]
      exact ih

/-- If the parameter list contains a `callback_url` entry whose substituted
value fails the format check (or whose substitution fails), the loop ends
disabled — independently of the incoming `enabled` flag. -/
theorem substLoop_callback_disables (env : Env) (vars : List (String × String))
    (name : String) :
    ∀ (l : List (String × String)) (en : Bool) (v : String),
      ("callback_url", v) ∈ l →
      (∀ w, pyFormat v vars = some w →
        ¬ (check_callback_url_format env name w = some true)) →
      (substLoop env vars name en l).2 = false := by
  intro l
  induction l with
  | nil => intro en v hcb _; simp at hcb
  | cons kv rest ih =>
    intro en v hcb hfail
    obtain ⟨param, value⟩ := kv
    unfold substLoop
    cases hf : pyFormat value vars with
    | none => rfl
    | some w =>
      simp only []
      by_cases hA : param = "callback_url" ∧ value = v
      · obtain ⟨hp, hv⟩ := hA
        subst hp
        subst hv
        have hchk := hfail w hf
        have hcond : (("callback_url" : String) == "callback_url" &&
            ¬ (check_callback_url_format env name w == some true)) = true := by
          simp only [beq_self_eq_true, Bool.true_and, decide_eq_true_eq]
          simpa using hchk
        rw [if_pos hcond]
        exact substLoop_false env vars name rest
      · have hcb' : ("callback_url", v) ∈ rest := by
          rcases List.mem_cons.mp hcb with heq | hmem
          · exact absurd ⟨congrArg Prod.fst heq.symm, congrArg Prod.snd heq.symm⟩ hA
          · exact hmem
        cases hE : (if (param == "callback_url" &&
            ¬ (check_callback_url_format env name w == some true)) = true
            then false else en) with
        | false => exact substLoop_false env vars name rest
        | true => exact ih true v hcb' hfail

/-- Claim C7: a configured provider whose substituted `callback_url` fails
the required pattern — in particular whenever the provider name contains
`'@'`, for which the check short-circuits to a falsy `None` — is
force-disabled by `__oauth_apply_templates` and excluded from
`get_oauth_providers`; every other provider is processed independently of
it. -/
theorem callback_format_failure_disables
    (env : Env) (shared : List (String × String)) (provider_name : String)
    (p : ProviderCfg) (tmpl : List (String × String)) (v : String)
    (hen : p.enabled = true)
    (htm : env.templates (p.template.getD "default") = some tmpl)
    (hdef : p.template.getD "default" ≠ "default")
    (hcb : ("callback_url", v) ∈ setDefaults p.params tmpl)
    (hfail : ∀ w, pyFormat v (mkOauthVars shared p.vars provider_name) = some w →
      ¬ (check_callback_url_format env provider_name w = some true)) :
    (processProvider env shared provider_name p).enabled = false ∧
    (∀ (st : SMState) (oc : OAuthCfg),
      oc.shared_variables = shared →
      st.auth.method_oauth = some (oauthApplyTemplates env oc) →
      (∀ q ∈ oc.providers, q.1 = provider_name → q.2 = p) →
      provider_name ∉ getOauthProviders st) ∧
    (∀ oc : OAuthCfg, oc.shared_variables = shared →
      ∀ nm q, (nm, q) ∈ oc.providers →
        (nm, processProvider env shared nm q) ∈ (oauthApplyTemplates env oc).providers) := by
  have hdis : (processProvider env shared provider_name p).enabled = false := by
    unfold processProvider
    simp only [hen, not_true, Bool.true_eq_false, if_false, ite_false, htm]
    have hbeq : (p.template.getD "default" == "default") = false := by
      simpa using hdef
    simp only [hbeq, Bool.false_eq_true, if_false]
    exact substLoop_callback_disables env _ provider_name _ true v hcb hfail
  refine ⟨hdis, ?_, ?_⟩
  · intro st oc hsh hoauth hq
    unfold getOauthProviders
    rw [hoauth]
    apply not_mem_enabled_providers
    intro q hqm hname
    unfold oauthApplyTemplates at hqm
    simp only [List.mem_map] at hqm
    obtain ⟨r, hr, hqeq⟩ := hqm
    subst hqeq
    simp only at hname
    have hrp : r.2 = p := hq r hr hname
    rw [hsh, hname, hrp]
    exact hdis
  · intro oc hsh nm q hmem
    unfold oauthApplyTemplates
    simp only [List.mem_map]
    exact ⟨(nm, q), hmem, by rw [hsh]⟩

/-- Witness for C7: the provider name `g@h` contains `'@'`, so the check
yields `None` for every substituted callback value and the provider is
disabled and excluded. -/
theorem callback_format_failure_disables_witness :
    (processProvider envTmpl [] "g@h" provAtSign).enabled = false ∧
    (∀ (st : SMState) (oc : OAuthCfg),
      oc.shared_variables = [] →
      st.auth.method_oauth = some (oauthApplyTemplates envTmpl oc) →
      (∀ q ∈ oc.providers, q.1 = "g@h" → q.2 = provAtSign) →
      "g@h" ∉ getOauthProviders st) ∧
    (∀ oc : OAuthCfg, oc.shared_variables = [] →
      ∀ nm q, (nm, q) ∈ oc.providers →
        (nm, processProvider envTmpl [] nm q) ∈ (oauthApplyTemplates envTmpl oc).providers) :=
  callback_format_failure_disables envTmpl [] "g@h" provAtSign [] "cb"
    (by rfl) (by rfl) (by decide) (by decide)
    (by
      intro w _
      have hat : ("g@h").data.contains '@' = true := by decide
      simp [check_callback_url_format, hat])

/-- With the split budget exhausted, `pySplitGo` collects the remainder
verbatim. -/
theorem pySplitGo_maxzero (l acc : List Char) :
    pySplitGo ':' (some 0) acc l = [String.mk (acc.reverse ++ l)] := by
  induction l generalizing acc with
  | nil => simp [pySplitGo]
  | cons c rest ih =>
    unfold pySplitGo
    rw [if_neg (by simp)]
    rw [ih]
    simp

/-- Splitting lemma: `("alice:" ++ p).split(':', 1) = ["alice", p]` for
every password `p`, colons in `p` included. -/
theorem pySplit_alice (p : String) :
    pySplit ':' (some 1) ("alice:" ++ p) = ["alice", p] := by
  have hdata : ("alice:" ++ p).data =
      'a' :: 'l' :: 'i' :: 'c' :: 'e' :: ':' :: p.data := by
    rw [String.data_append]
    rfl
  unfold pySplit
  rw [hdata]
  simp only [pySplitGo, if_neg (by decide : ¬('a' = ':' ∧ (some 1 : Option Nat) ≠ some 0)),
    if_neg (by decide : ¬('l' = ':' ∧ (some 1 : Option Nat) ≠ some 0)),
    if_neg (by decide : ¬('i' = ':' ∧ (some 1 : Option Nat) ≠ some 0)),
    if_neg (by decide : ¬('c' = ':' ∧ (some 1 : Option Nat) ≠ some 0)),
    if_neg (by decide : ¬('e' = ':' ∧ (some 1 : Option Nat) ≠ some 0)),
    if_pos (by decide : (':' = ':' ∧ (some 1 : Option Nat) ≠ some 0))]
  rw [pySplitGo_maxzero]
  rfl

/-- Claim C9 (counterexample): with the dictionary entry exactly as the
specification prints it — a 63-hex-digit hash, one digit short of a
SHA-256 hexdigest, the real `sha256("password")` ending in `...542d8` —
the credential `alice:password` is *rejected*: the recomputed 64-digit
digest can never equal the stored 63-digit string. -/
theorem dictionary_spec_entry_rejects_password :
    sha256Hex "password" =
      "5e884898da28047151d0e56f8dc6292773603d0d6aabbdd62a11ef721d1542d8" ∧
    createSession envSha "alice:password" (stDict entryBad) =
      .ok (.falseR, { (stDict entryBad) with logins_since_prune := 1 }) :=
  ⟨by decide, by rfl⟩

/-- Claim C9 (amended): with the dictionary backend containing exactly the
entry for `alice` carrying the full 64-digit `sha256("password")` digest,
the credential `alice:password` is accepted (yielding a session for
`alice`), and a credential `alice:p` is rejected whenever `p`'s SHA-256
hexdigest differs from the stored digest and the credential is not the
stored entry string itself (presenting the entry verbatim short-circuits
the hash comparison in the source). -/
theorem dictionary_sha256_accepts_and_rejects
    (p : String)
    (hne : "alice:" ++ p ≠ entryGood)
    (hhash : sha256Hex p ≠
      "5e884898da28047151d0e56f8dc6292773603d0d6aabbdd62a11ef721d1542d8") :
    createSession envSha "alice:password" (stDict entryGood) =
      .ok (.session (mkSession "newtok" "alice" [] 3600 none false false none 1000),
        { (stDict entryGood) with
            logins_since_prune := 1,
            sessions := [mkSession "newtok" "alice" [] 3600 none false false none 1000] }) ∧
    createSession envSha ("alice:" ++ p) (stDict entryGood) =
      .ok (.falseR, { (stDict entryGood) with logins_since_prune := 1 }) := by
  refine ⟨by rfl, ?_⟩
  have hsplit : pySplit ':' (some 1) ("alice:" ++ p) = ["alice", p] := pySplit_alice p
  have hsp3 : pySplit ':' (some 3)
      "alice:5e884898da28047151d0e56f8dc6292773603d0d6aabbdd62a11ef721d1542d8:sha256" =
      ["alice", "5e884898da28047151d0e56f8dc6292773603d0d6aabbdd62a11ef721d1542d8",
       "sha256"] := by decide
  have hne2 : ¬ (("alice:5e884898da28047151d0e56f8dc6292773603d0d6aabbdd62a11ef721d1542d8:sha256" : String)
      = "alice:" ++ p) := fun h => hne h.symm
  have hbh2 : ¬ (("5e884898da28047151d0e56f8dc6292773603d0d6aabbdd62a11ef721d1542d8" : String)
      = sha256Hex p) := fun h => hhash h.symm
  unfold createSession handleValidation validationChainRaw tryPersonalAccessToken
    tryAuthDictionary tryAuthPam tryAuthLdap tryAuthToken
  simp +decide [stDict, mkState, cfgEnabled, cfgBase, envSha, envBase, storeCfg0,
    isMethodEnabled, methodCfgEnabled, hsplit, hsp3, hne2, hbh2, entryGood, tryRegexGroups]

/-- Witness for C9 (amended) at the wrong password `wrong`. -/
theorem dictionary_sha256_accepts_and_rejects_witness :
    createSession envSha "alice:password" (stDict entryGood) =
      .ok (.session (mkSession "newtok" "alice" [] 3600 none false false none 1000),
        { (stDict entryGood) with
            logins_since_prune := 1,
            sessions := [mkSession "newtok" "alice" [] 3600 none false false none 1000] }) ∧
    createSession envSha ("alice:" ++ "wrong") (stDict entryGood) =
      .ok (.falseR, { (stDict entryGood) with logins_since_prune := 1 }) :=
  dictionary_sha256_accepts_and_rejects "wrong" (by decide) (by decide)
